import Mathlib

/-!
Verification of the configuration and privacy-policy subsystem of the
ippsample print server, embedded from src/server/conf.c.

C strings are modelled as Lean `String`, byte-wise `strcmp` as a
three-valued comparison on the underlying character lists, file contents
as lists of already-tokenized entries (the line tokenizer
`cupsFileGetConf` and the ipptool file engine are external collaborators
per the spec), and the handful of CUPS container primitives that conf.c
calls but whose implementation is not part of the source under
verification are modelled from the specification where their doc
comments say so.
-/

/-- Three-valued comparison modelling C `strcmp` on the character lists
underlying two strings: -1 when the first compares smaller, 0 when the
lists are equal, and 1 when the first compares greater. -/
def strcmp3 : List Char → List Char → Int
  | [], [] => 0
  | [], _ :: _ => -1
  | _ :: _, [] => 1
  | a :: as, b :: bs =>
    if a < b then -1
    else if b < a then 1
    else strcmp3 as bs

theorem strcmp3_eq_zero_iff : ∀ a b : List Char, strcmp3 a b = 0 ↔ a = b := by
  intro a
  induction a with
  | nil =>
    intro b
    cases b <;> simp [strcmp3]
  | cons x as ih =>
    intro b
    cases b with
    | nil => simp [strcmp3]
    | cons y bs =>
      by_cases h1 : x < y
      · have hne : x ≠ y := ne_of_lt h1
        simp [strcmp3, h1, hne]
      · by_cases h2 : y < x
        · have hne : x ≠ y := (ne_of_lt h2).symm
          simp [strcmp3, h1, h2, hne]
        · have heq : x = y := le_antisymm (not_lt.mp h2) (not_lt.mp h1)
          subst heq
          simp [strcmp3, ih bs]

theorem strcmp3_self (a : List Char) : strcmp3 a a = 0 :=
  (strcmp3_eq_zero_iff a a).mpr rfl

theorem strcmp3_cases : ∀ a b : List Char,
    strcmp3 a b = -1 ∨ strcmp3 a b = 0 ∨ strcmp3 a b = 1 := by
  intro a
  induction a with
  | nil => intro b; cases b <;> simp [strcmp3]
  | cons x as ih =>
    intro b
    cases b with
    | nil => simp [strcmp3]
    | cons y bs =>
      by_cases h1 : x < y
      · simp [strcmp3, h1]
      · by_cases h2 : y < x
        · simp [strcmp3, h1, h2]
        · simp [strcmp3, h1, h2, ih bs]

theorem strcmp3_one_iff : ∀ a b : List Char, strcmp3 a b = 1 ↔ strcmp3 b a = -1 := by
  intro a
  induction a with
  | nil => intro b; cases b <;> simp [strcmp3]
  | cons x as ih =>
    intro b
    cases b with
    | nil => simp [strcmp3]
    | cons y bs =>
      by_cases h1 : x < y
      · have h2 : ¬ y < x := asymm h1
        simp [strcmp3, h1, h2]
      · by_cases h2 : y < x
        · simp [strcmp3, h1, h2]
        · simp [strcmp3, h1, h2, ih bs]

theorem strcmp3_neg_trans : ∀ a b c : List Char,
    strcmp3 a b = -1 → strcmp3 b c = -1 → strcmp3 a c = -1 := by
  intro a
  induction a with
  | nil =>
    intro b c hab hbc
    cases b with
    | nil => simp [strcmp3] at hab
    | cons y bs =>
      cases c with
      | nil => simp [strcmp3] at hbc
      | cons z cs => simp [strcmp3]
  | cons x as ih =>
    intro b c hab hbc
    cases b with
    | nil => simp [strcmp3] at hab
    | cons y bs =>
      cases c with
      | nil => simp [strcmp3] at hbc
      | cons z cs =>
        by_cases hxy : x < y
        · by_cases hyz : y < z
          · have hxz : x < z := lt_trans hxy hyz
            simp [strcmp3, hxz]
          · by_cases hzy : z < y
            · simp [strcmp3, hyz, hzy] at hbc
            · have hyzeq : y = z := le_antisymm (not_lt.mp hzy) (not_lt.mp hyz)
              subst hyzeq
              simp [strcmp3, hxy]
        · by_cases hyx : y < x
          · simp [strcmp3, hxy, hyx] at hab
          · have hxyeq : x = y := le_antisymm (not_lt.mp hyx) (not_lt.mp hxy)
            subst hxyeq
            simp [strcmp3] at hab
            by_cases hxz : x < z
            · simp [strcmp3, hxz]
            · by_cases hzx : z < x
              · simp [strcmp3, hxz, hzx] at hbc
              · have hxzeq : x = z := le_antisymm (not_lt.mp hzx) (not_lt.mp hxz)
                subst hxzeq
                simp [strcmp3] at hbc ⊢
                exact ih bs cs hab hbc

theorem string_data_inj : ∀ a b : String, a.data = b.data → a = b := by
  intro a b h
  cases a
  cases b
  exact congrArg String.mk h

/-- Modelled from the spec: `cupsArrayAdd` on a CUPS array built with a
string-key comparator and a copy callback. The CUPS array implementation
is not part of src/server/conf.c, which only calls it; the spec
prescribes set semantics for these arrays (privacy attribute arrays are
deduplicated, and the localization array keeps one entry per language
with the last write winning), so an element whose key is already present
replaces the stored entry, and a new key is inserted in key-sorted
position. -/
def sortedAdd {α : Type} (key : α → String) : List α → α → List α
  | [], x => [x]
  | y :: rest, x =>
    if strcmp3 (key x).data (key y).data = 0 then x :: rest
    else if strcmp3 (key x).data (key y).data = -1 then x :: y :: rest
    else y :: sortedAdd key rest x

theorem sortedAdd_subset {α : Type} (key : α → String) :
    ∀ (l : List α) (x b : α), b ∈ sortedAdd key l x → b = x ∨ b ∈ l := by
  intro l
  induction l with
  | nil =>
    intro x b hb
    simp [sortedAdd] at hb
    exact Or.inl hb
  | cons y rest ih =>
    intro x b hb
    by_cases h0 : strcmp3 (key x).data (key y).data = 0
    · simp only [sortedAdd, if_pos h0] at hb
      rcases List.mem_cons.mp hb with hb | hb
      · exact Or.inl hb
      · exact Or.inr (List.mem_cons_of_mem _ hb)
    · by_cases h1 : strcmp3 (key x).data (key y).data = -1
      · simp only [sortedAdd, if_neg h0, if_pos h1] at hb
        rcases List.mem_cons.mp hb with hb | hb
        · exact Or.inl hb
        · exact Or.inr hb
      · simp only [sortedAdd, if_neg h0, if_neg h1] at hb
        rcases List.mem_cons.mp hb with hb | hb
        · exact Or.inr (by simp [hb])
        · rcases ih x b hb with h | h
          · exact Or.inl h
          · exact Or.inr (List.mem_cons_of_mem _ h)

theorem sortedAdd_pairwise {α : Type} (key : α → String) :
    ∀ (l : List α) (x : α),
      l.Pairwise (fun a b => strcmp3 (key a).data (key b).data = -1) →
      (sortedAdd key l x).Pairwise (fun a b => strcmp3 (key a).data (key b).data = -1) := by
  intro l
  induction l with
  | nil =>
    intro x _
    simp [sortedAdd]
  | cons y rest ih =>
    intro x h
    rcases List.pairwise_cons.mp h with ⟨hy, hrest⟩
    by_cases h0 : strcmp3 (key x).data (key y).data = 0
    · have hdata : (key x).data = (key y).data := by
        have := (strcmp3_eq_zero_iff _ _).mp h0
        exact this
      simp only [sortedAdd, if_pos h0]
      refine List.pairwise_cons.mpr ⟨?_, hrest⟩
      intro b hb
      rw [hdata]
      exact hy b hb
    · by_cases h1 : strcmp3 (key x).data (key y).data = -1
      · simp only [sortedAdd, if_neg h0, if_pos h1]
        refine List.pairwise_cons.mpr ⟨?_, h⟩
        intro b hb
        rcases List.mem_cons.mp hb with hb | hb
        · rw [hb]; exact h1
        · exact strcmp3_neg_trans _ _ _ h1 (hy b hb)
      · have hyx : strcmp3 (key y).data (key x).data = -1 := by
          rcases strcmp3_cases (key x).data (key y).data with h | h | h
          · exact absurd h h1
          · exact absurd h h0
          · exact (strcmp3_one_iff _ _).mp h
        simp only [sortedAdd, if_neg h0, if_neg h1]
        refine List.pairwise_cons.mpr ⟨?_, ih x hrest⟩
        intro b hb
        rcases sortedAdd_subset key rest x b hb with hb | hb
        · rw [hb]; exact hyx
        · exact hy b hb

theorem foldl_sortedAdd_pairwise {α : Type} (key : α → String) :
    ∀ (xs : List α) (l : List α),
      l.Pairwise (fun a b => strcmp3 (key a).data (key b).data = -1) →
      (xs.foldl (sortedAdd key) l).Pairwise
        (fun a b => strcmp3 (key a).data (key b).data = -1) := by
  intro xs
  induction xs with
  | nil => intro l h; simpa using h
  | cons x xs ih =>
    intro l h
    simpa using ih (sortedAdd key l x) (sortedAdd_pairwise key l x h)

theorem pairwise_key_nodup {α : Type} (key : α → String) (l : List α)
    (h : l.Pairwise (fun a b => strcmp3 (key a).data (key b).data = -1)) :
    l.Nodup := by
  refine h.imp ?_
  intro a b hab
  intro heq
  rw [heq] at hab
  rw [strcmp3_self] at hab
  exact absurd hab (by decide)

/-- Specialization of the modelled `cupsArrayAdd` for the privacy
attribute arrays, which conf.c creates with `strcmp` as the comparator
and `strdup` as the copy callback, so the elements themselves are the
keys. -/
def strAdd (l : List String) (x : String) : List String :=
  sortedAdd (fun s => s) l x

theorem mem_strAdd : ∀ (l : List String) (x b : String),
    b ∈ strAdd l x ↔ b = x ∨ b ∈ l := by
  intro l
  induction l with
  | nil =>
    intro x b
    simp [strAdd, sortedAdd]
  | cons y rest ih =>
    intro x b
    by_cases h0 : strcmp3 x.data y.data = 0
    · have hxy : x = y := string_data_inj _ _ ((strcmp3_eq_zero_iff _ _).mp h0)
      subst hxy
      simp only [strAdd, sortedAdd, if_pos h0]
      constructor
      · intro hb
        rcases List.mem_cons.mp hb with hb | hb
        · exact Or.inl hb
        · exact Or.inr (List.mem_cons_of_mem _ hb)
      · intro hb
        rcases hb with hb | hb
        · simp [hb]
        · rcases List.mem_cons.mp hb with hb | hb
          · simp [hb]
          · exact List.mem_cons_of_mem _ hb
    · by_cases h1 : strcmp3 x.data y.data = -1
      · simp only [strAdd, sortedAdd, if_neg h0, if_pos h1]
        constructor
        · intro hb
          rcases List.mem_cons.mp hb with hb | hb
          · exact Or.inl hb
          · exact Or.inr hb
        · intro hb
          rcases hb with hb | hb
          · simp [hb]
          · exact List.mem_cons_of_mem _ hb
      · simp only [strAdd, sortedAdd, if_neg h0, if_neg h1]
        rw [List.mem_cons]
        rw [show sortedAdd (fun s => s) rest x = strAdd rest x from rfl]
        rw [ih x b]
        constructor
        · intro hb
          rcases hb with hb | hb | hb
          · exact Or.inr (by simp [hb])
          · exact Or.inl hb
          · exact Or.inr (List.mem_cons_of_mem _ hb)
        · intro hb
          rcases hb with hb | hb
          · exact Or.inr (Or.inl hb)
          · rcases List.mem_cons.mp hb with hb | hb
            · exact Or.inl hb
            · exact Or.inr (Or.inr hb)

theorem mem_foldl_strAdd : ∀ (xs : List String) (l : List String) (b : String),
    b ∈ xs.foldl strAdd l ↔ b ∈ l ∨ b ∈ xs := by
  intro xs
  induction xs with
  | nil => intro l b; simp
  | cons x xs ih =>
    intro l b
    simp only [List.foldl_cons]
    rw [ih (strAdd l x) b, mem_strAdd]
    constructor
    · intro hb
      rcases hb with (hb | hb) | hb
      · exact Or.inr (by simp [hb])
      · exact Or.inl hb
      · exact Or.inr (List.mem_cons_of_mem _ hb)
    · intro hb
      rcases hb with hb | hb
      · exact Or.inl (Or.inr hb)
      · rcases List.mem_cons.mp hb with hb | hb
        · exact Or.inl (Or.inl hb)
        · exact Or.inr hb

theorem sortedAdd_find_eq {α : Type} (key : α → String) :
    ∀ (l : List α) (x : α) (s : String),
      (sortedAdd key l x).find? (fun e => key e == s) =
        if key x = s then some x else l.find? (fun e => key e == s) := by
  intro l
  induction l with
  | nil =>
    intro x s
    by_cases hx : key x = s
    · have hbx : (key x == s) = true := by simp [hx]
      simp [sortedAdd, List.find?_cons, hbx, hx]
    · have hbx : (key x == s) = false := by simp [hx]
      simp [sortedAdd, List.find?_cons, hbx, hx]
  | cons y rest ih =>
    intro x s
    by_cases h0 : strcmp3 (key x).data (key y).data = 0
    · have hxy : key x = key y := string_data_inj _ _ ((strcmp3_eq_zero_iff _ _).mp h0)
      simp only [sortedAdd, if_pos h0]
      by_cases hx : key x = s
      · have hbx : (key x == s) = true := by simp [hx]
        simp [List.find?_cons, hbx, hx]
      · have hbx : (key x == s) = false := by simp [hx]
        have hby : (key y == s) = false := by
          rw [← hxy]
          exact hbx
        simp [List.find?_cons, hbx, hby, hx]
    · by_cases h1 : strcmp3 (key x).data (key y).data = -1
      · simp only [sortedAdd, if_neg h0, if_pos h1]
        by_cases hx : key x = s
        · have hbx : (key x == s) = true := by simp [hx]
          simp [List.find?_cons, hbx, hx]
        · have hbx : (key x == s) = false := by simp [hx]
          simp [List.find?_cons, hbx, hx]
      · have hne : key x ≠ key y := by
          intro heq
          exact h0 ((strcmp3_eq_zero_iff _ _).mpr (congrArg String.data heq))
        simp only [sortedAdd, if_neg h0, if_neg h1]
        by_cases hy : key y = s
        · have hx : ¬ key x = s := by
            rw [← hy]
            exact hne
          have hbx : (key x == s) = false := by simp [hx]
          have hby : (key y == s) = true := by simp [hy]
          simp [List.find?_cons, hbx, hby, hx]
        · have hby : (key y == s) = false := by simp [hy]
          simp only [List.find?_cons, hby, cond_false]
          rw [ih x s]

/-- Comma splitting exactly as the value-parsing loop of
`add_document_privacy` / `add_job_privacy` / `add_subscription_privacy`
performs it (conf.c lines 648-686 and the two copies): each iteration
takes the characters up to the next comma or the end of the string as
one token, consumes the comma if present, and stops when the remaining
text is empty, so a trailing comma produces no empty final token while
interior and leading commas do produce empty tokens. -/
def cTokensGo : List Char → List Char → List (List Char)
  | [], acc => [acc.reverse]
  | c :: rest, acc =>
    if c = ',' then
      acc.reverse ::
        (match rest with
         | [] => []
         | d :: rest2 => cTokensGo (d :: rest2) [])
    else cTokensGo rest (c :: acc)

/-- Tokens of a privacy attributes value, per the C loop: the empty
string yields no tokens at all. -/
def cTokens (s : String) : List String :=
  match s.data with
  | [] => []
  | c :: rest => (cTokensGo (c :: rest) []).map (fun l => String.mk l)

example : cTokens "default" = ["default"] := by decide
example : cTokens "" = [] := by decide
example : cTokens "a,b" = ["a", "b"] := by decide
example : cTokens "a,b," = ["a", "b"] := by decide
example : cTokens ",a" = ["", "a"] := by decide

/-- Static document-description attribute table of add_document_privacy (conf.c). -/
def documentDescription : List String :=
  ["compression",
   "copies-actual",
   "cover-back-actual",
   "cover-front-actual",
   "current-page-order",
   "date-time-at-completed",
   "date-time-at-creation",
   "date-time-at-processing",
   "detailed-status-messages",
   "document-access-errors",
   "document-charset",
   "document-digital-signature",
   "document-format",
   "document-format-details",
   "document-format-detected",
   "document-format-version",
   "document-format-version-detected",
   "document-message",
   "document-metadata",
   "document-name",
   "document-natural-language",
   "document-state",
   "document-state-message",
   "document-state-reasons",
   "document-uri",
   "errors-count",
   "finishings-actual",
   "finishings-col-actual",
   "force-front-side-actual",
   "imposition-template-actual",
   "impressions",
   "impressions-col",
   "impressions-completed",
   "impressions-completed-col",
   "impressions-completed-current-copy",
   "insert-sheet-actual",
   "k-octets",
   "k-octets-processed",
   "last-document",
   "materials-col-actual",
   "media-actual",
   "media-col-actual",
   "media-input-tray-check-actual",
   "media-sheets",
   "media-sheets-col",
   "media-sheets-completed",
   "media-sheets-completed-col",
   "more-info",
   "multiple-object-handling-actual",
   "number-up-actual",
   "orientation-requested-actual",
   "output-bin-actual",
   "output-device-assigned",
   "overrides-actual",
   "page-delivery-actual",
   "page-order-received-actual",
   "page-ranges-actual",
   "pages",
   "pages-col",
   "pages-completed",
   "pages-completed-col",
   "pages-completed-current-copy",
   "platform-temperature-actual",
   "presentation-direction-number-up-actual",
   "print-accuracy-actual",
   "print-base-actual",
   "print-color-mode-actual",
   "print-content-optimize-actual",
   "print-objects-actual",
   "print-quality-actual",
   "print-rendering-intent-actual",
   "print-scaling-actual",
   "print-supports-actual",
   "printer-resolution-actual",
   "printer-up-time",
   "separator-sheets-actual",
   "sheet-completed-copy-number",
   "sides-actual",
   "time-at-completed",
   "time-at-creation",
   "time-at-processing",
   "x-image-position-actual",
   "x-image-shift-actual",
   "x-side1-image-shift-actual",
   "x-side2-image-shift-actual",
   "y-image-position-actual",
   "y-image-shift-actual",
   "y-side1-image-shift-actual",
   "y-side2-image-shift-actual"]

/-- Static document-template attribute table of add_document_privacy (conf.c). -/
def documentTemplate : List String :=
  ["copies",
   "cover-back",
   "cover-front",
   "feed-orientation",
   "finishings",
   "finishings-col",
   "font-name-requested",
   "font-size-requested",
   "force-front-side",
   "imposition-template",
   "insert-sheet",
   "materials-col",
   "media",
   "media-col",
   "media-input-tray-check",
   "multiple-document-handling",
   "multiple-object-handling",
   "number-up",
   "orientation-requested",
   "overrides",
   "page-delivery",
   "page-order-received",
   "page-ranges",
   "pages-per-subset",
   "pdl-init-file",
   "platform-temperature",
   "presentation-direction-number-up",
   "print-accuracy",
   "print-base",
   "print-color-mode",
   "print-content-optimize",
   "print-objects",
   "print-quality",
   "print-rendering-intent",
   "print-scaling",
   "print-supports",
   "printer-resolution",
   "separator-sheets",
   "sheet-collate",
   "sides",
   "x-image-position",
   "x-image-shift",
   "x-side1-image-shift",
   "x-side2-image-shift",
   "y-image-position",
   "y-image-shift",
   "y-side1-image-shift",
   "y-side2-image-shift"]

/-- Static job-description attribute table of add_job_privacy (conf.c). -/
def jobDescription : List String :=
  ["compression-supplied",
   "copies-actual",
   "cover-back-actual",
   "cover-front-actual",
   "current-page-order",
   "date-time-at-completed",
   "date-time-at-creation",
   "date-time-at-processing",
   "destination-statuses",
   "document-charset-supplied",
   "document-digital-signature-supplied",
   "document-format-details-supplied",
   "document-format-supplied",
   "document-message-supplied",
   "document-metadata",
   "document-name-supplied",
   "document-natural-language-supplied",
   "document-overrides-actual",
   "errors-count",
   "finishings-actual",
   "finishings-col-actual",
   "force-front-side-actual",
   "imposition-template-actual",
   "impressions-completed-current-copy",
   "insert-sheet-actual",
   "job-account-id-actual",
   "job-accounting-sheets-actual",
   "job-accounting-user-id-actual",
   "job-attribute-fidelity",
   "job-collation-type",
   "job-collation-type-actual",
   "job-copies-actual",
   "job-cover-back-actual",
   "job-cover-front-actual",
   "job-detailed-status-message",
   "job-document-access-errors",
   "job-error-sheet-actual",
   "job-finishings-actual",
   "job-finishings-col-actual",
   "job-hold-until-actual",
   "job-impressions",
   "job-impressions-col",
   "job-impressions-completed",
   "job-impressions-completed-col",
   "job-k-octets",
   "job-k-octets-processed",
   "job-mandatory-attributes",
   "job-media-sheets",
   "job-media-sheets-col",
   "job-media-sheets-completed",
   "job-media-sheets-completed-col",
   "job-message-from-operator",
   "job-more-info",
   "job-name",
   "job-originating-user-name",
   "job-originating-user-uri",
   "job-pages",
   "job-pages-col",
   "job-pages-completed",
   "job-pages-completed-col",
   "job-pages-completed-current-copy",
   "job-priority-actual",
   "job-save-printer-make-and-model",
   "job-sheet-message-actual",
   "job-sheets-actual",
   "job-sheets-col-actual",
   "job-state",
   "job-state-message",
   "job-state-reasons",
   "materials-col-actual",
   "media-actual",
   "media-col-actual",
   "media-check-input-tray-actual",
   "multiple-document-handling-actual",
   "multiple-object-handling-actual",
   "number-of-documents",
   "number-of-intervening-jobs",
   "number-up-actual",
   "orientation-requested-actual",
   "original-requesting-user-name",
   "output-bin-actual",
   "output-device-assigned",
   "overrides-actual",
   "page-delivery-actual",
   "page-order-received-actual",
   "page-ranges-actual",
   "platform-temperature-actual",
   "presentation-direction-number-up-actual",
   "print-accuracy-actual",
   "print-base-actual",
   "print-color-mode-actual",
   "print-content-optimize-actual",
   "print-objects-actual",
   "print-quality-actual",
   "print-rendering-intent-actual",
   "print-scaling-actual",
   "print-supports-actual",
   "printer-resolution-actual",
   "separator-sheets-actual",
   "sheet-collate-actual",
   "sheet-completed-copy-number",
   "sheet-completed-document-number",
   "sides-actual",
   "time-at-completed",
   "time-at-creation",
   "time-at-processing",
   "warnings-count",
   "x-image-position-actual",
   "x-image-shift-actual",
   "x-side1-image-shift-actual",
   "x-side2-image-shift-actual",
   "y-image-position-actual",
   "y-image-shift-actual",
   "y-side1-image-shift-actual",
   "y-side2-image-shift-actual"]

/-- Static job-template attribute table of add_job_privacy (conf.c). The source is missing a comma between the "job-accounting-sheets" and "job-accounting-user-id" literals, so C string-literal concatenation makes them a single table entry. -/
def jobTemplate : List String :=
  ["confirmation-sheet-print",
   "copies",
   "cover-back",
   "cover-front",
   "cover-sheet-info",
   "destination-uris",
   "feed-orientation",
   "finishings",
   "finishings-col",
   "font-name-requested",
   "font-size-requested",
   "force-front-side",
   "imposition-template",
   "insert-sheet",
   "job-account-id",
   "job-accounting-sheetsjob-accounting-user-id",
   "job-copies",
   "job-cover-back",
   "job-cover-front",
   "job-delay-output-until",
   "job-delay-output-until-time",
   "job-error-action",
   "job-error-sheet",
   "job-finishings",
   "job-finishings-col",
   "job-hold-until",
   "job-hold-until-time",
   "job-message-to-operator",
   "job-phone-number",
   "job-priority",
   "job-recipient-name",
   "job-save-disposition",
   "job-sheets",
   "job-sheets-col",
   "materials-col",
   "media",
   "media-col",
   "media-input-tray-check",
   "multiple-document-handling",
   "multiple-object-handling",
   "number-of-retries",
   "number-up",
   "orientation-requested",
   "output-bin",
   "output-device",
   "overrides",
   "page-delivery",
   "page-order-received",
   "page-ranges",
   "pages-per-subset",
   "pdl-init-file",
   "platform-temperature",
   "presentation-direction-number-up",
   "print-accuracy",
   "print-base",
   "print-color-mode",
   "print-content-optimize",
   "print-objects",
   "print-quality",
   "print-rendering-intent",
   "print-scaling",
   "print-supports",
   "printer-resolution",
   "proof-print",
   "retry-interval",
   "retry-timeout",
   "separator-sheets",
   "sheet-collate",
   "sides",
   "x-image-position",
   "x-image-shift",
   "x-side1-image-shift",
   "x-side2-image-shift",
   "y-image-position",
   "y-image-shift",
   "y-side1-image-shift",
   "y-side2-image-shift"]

/-- Static subscription-description attribute table of add_subscription_privacy (conf.c). -/
def subscriptionDescription : List String :=
  ["notify-lease-expiration-time",
   "notify-sequence-number",
   "notify-subscriber-user-name"]

/-- Static subscription-template attribute table of add_subscription_privacy (conf.c). -/
def subscriptionTemplate : List String :=
  ["notify-attributes",
   "notify-charset",
   "notify-events",
   "notify-lease-duration",
   "notify-natural-language",
   "notify-pull-method",
   "notify-recipient-uri",
   "notify-time-interval",
   "notify-user-data"]

/-- Sorted table of attributes that attr_cb refuses to import from a queue attribute file (conf.c). -/
def ignored : List String :=
  ["attributes-charset",
   "attributes-natural-language",
   "charset-configured",
   "charset-supported",
   "device-service-count",
   "device-uuid",
   "document-format-varying-attributes",
   "job-settable-attributes-supported",
   "printer-alert",
   "printer-alert-description",
   "printer-camera-image-uri",
   "printer-charge-info",
   "printer-charge-info-uri",
   "printer-config-change-date-time",
   "printer-config-change-time",
   "printer-current-time",
   "printer-detailed-status-messages",
   "printer-dns-sd-name",
   "printer-fax-log-uri",
   "printer-get-attributes-supported",
   "printer-icons",
   "printer-id",
   "printer-is-accepting-jobs",
   "printer-message-date-time",
   "printer-message-from-operator",
   "printer-message-time",
   "printer-more-info",
   "printer-service-type",
   "printer-settable-attributes-supported",
   "printer-state",
   "printer-state-message",
   "printer-state-reasons",
   "printer-static-resource-directory-uri",
   "printer-static-resource-k-octets-free",
   "printer-static-resource-k-octets-supported",
   "printer-strings-languages-supported",
   "printer-strings-uri",
   "printer-supply-info-uri",
   "printer-up-time",
   "printer-uri-supported",
   "printer-xri-supported",
   "queued-job-count",
   "uri-authentication-supported",
   "uri-security-supported",
   "xri-authentication-supported",
   "xri-security-supported",
   "xri-uri-scheme-supported"]

/-- Expansion of one kept token of a privacy attributes value into the
category's privacy array, exactly as the else-branch of the three
add_*_privacy functions does it: the alias "default" appends the
description table then the template table, the category-description and
category-template aliases append their one table, and any other token is
appended verbatim as a literal attribute name. -/
def expandToken (desc templ : List String) (catD catT : String)
    (arr : List String) (tok : String) : List String :=
  if tok = "default" then templ.foldl strAdd (desc.foldl strAdd arr)
  else if tok = catD then desc.foldl strAdd arr
  else if tok = catT then templ.foldl strAdd arr
  else strAdd arr tok

/-- Privacy attribute resolution shared by add_document_privacy,
add_job_privacy and add_subscription_privacy (conf.c), parameterized by
the category's static tables and alias names. The first component is
the category's privacy array: `none` models the NULL array that the
value "none" leaves behind; otherwise the array built through
`cupsArrayAdd`. The second component is the list of keywords recorded
in the <category>-privacy-attributes value of `PrivacyAttributes`:
"none" and "all" whole-value shortcuts verbatim, and in the enumerated
case every comma-separated token that is not a literal "all"/"none",
in order. -/
def resolveAttrs (desc templ : List String) (catD catT : String)
    (attrs : String) : Option (List String) × List String :=
  if attrs = "none" then (none, ["none"])
  else if attrs = "all" then
    (some (templ.foldl strAdd (desc.foldl strAdd [])), ["all"])
  else
    (some (((cTokens attrs).filter
        (fun t => !(t == "all" || t == "none"))).foldl
          (expandToken desc templ catD catT) []),
     (cTokens attrs).filter (fun t => !(t == "all" || t == "none")))

/-- Embedding of add_document_privacy (conf.c lines 628-690) as a
function of the DocumentPrivacyAttributes string. -/
def add_document_privacy (attrs : String) : Option (List String) × List String :=
  resolveAttrs documentDescription documentTemplate
    "document-description" "document-template" attrs

/-- Embedding of add_job_privacy (conf.c lines 906-968) as a function of
the JobPrivacyAttributes string. -/
def add_job_privacy (attrs : String) : Option (List String) × List String :=
  resolveAttrs jobDescription jobTemplate "job-description" "job-template" attrs

/-- Embedding of add_subscription_privacy (conf.c lines 1003-1065) as a
function of the SubscriptionPrivacyAttributes string. -/
def add_subscription_privacy (attrs : String) : Option (List String) × List String :=
  resolveAttrs subscriptionDescription subscriptionTemplate
    "subscription-description" "subscription-template" attrs

example : (add_subscription_privacy "none").1 = none := by decide
example : (add_subscription_privacy "notify-events").2 = ["notify-events"] := by decide

theorem resolveAttrs_default_pair (desc templ : List String) (catD catT s : String)
    (hne : s ≠ "none") (hna : s ≠ "all")
    (htok : cTokens s = [catD, catT])
    (h1 : catD ≠ "default") (h2 : catT ≠ "default") (h3 : catT ≠ catD)
    (h4 : (catD == "all" || catD == "none") = false)
    (h5 : (catT == "all" || catT == "none") = false) :
    (resolveAttrs desc templ catD catT "default").1 =
      (resolveAttrs desc templ catD catT s).1 := by
  have hd1 : ("default" : String) ≠ "none" := by decide
  have hd2 : ("default" : String) ≠ "all" := by decide
  have hk1 : cTokens "default" = ["default"] := by decide
  have h4t : (!(catD == "all" || catD == "none")) = true := by rw [h4]; rfl
  have h5t : (!(catT == "all" || catT == "none")) = true := by rw [h5]; rfl
  rw [resolveAttrs, if_neg hd1, if_neg hd2]
  rw [resolveAttrs, if_neg hne, if_neg hna]
  rw [hk1, htok]
  have hf1 : (["default"] : List String).filter
      (fun t => !(t == "all" || t == "none")) = ["default"] := by decide
  have hf2 : ([catD, catT] : List String).filter
      (fun t => !(t == "all" || t == "none")) = [catD, catT] := by
    simp only [List.filter_cons, h4t, h5t, if_pos]
    rfl
  rw [hf1, hf2]
  simp only [List.foldl_cons, List.foldl_nil]
  simp [expandToken, h1, h2, h3]

theorem resolveAttrs_none_all (desc templ : List String) (catD catT : String) :
    (resolveAttrs desc templ catD catT "none").1 = none ∧
    (resolveAttrs desc templ catD catT "none").2 = ["none"] ∧
    (∀ a, a ∈ ((resolveAttrs desc templ catD catT "all").1.getD []) ↔
      (a ∈ desc ∨ a ∈ templ)) ∧
    (resolveAttrs desc templ catD catT "all").2 = ["all"] := by
  refine ⟨rfl, rfl, ?_, rfl⟩
  intro a
  have h1 : ("all" : String) ≠ "none" := by decide
  rw [resolveAttrs, if_neg h1, if_pos rfl]
  simp only [Option.getD_some]
  rw [mem_foldl_strAdd, mem_foldl_strAdd]
  simp

/-- C1: for each privacy category, the operator value "none" leaves the
privacy array NULL (so the resolved attribute set is empty) and records
the single keyword "none" as the advertised value, while the value
"all" resolves to exactly the union of the category's static
description and template tables with advertised value "all". -/
theorem privacy_none_all_resolution :
    ((add_document_privacy "none").1 = none ∧
      (add_document_privacy "none").1.getD [] = [] ∧
      (add_document_privacy "none").2 = ["none"] ∧
      (∀ a, a ∈ ((add_document_privacy "all").1.getD []) ↔
        (a ∈ documentDescription ∨ a ∈ documentTemplate)) ∧
      (add_document_privacy "all").2 = ["all"]) ∧
    ((add_job_privacy "none").1 = none ∧
      (add_job_privacy "none").1.getD [] = [] ∧
      (add_job_privacy "none").2 = ["none"] ∧
      (∀ a, a ∈ ((add_job_privacy "all").1.getD []) ↔
        (a ∈ jobDescription ∨ a ∈ jobTemplate)) ∧
      (add_job_privacy "all").2 = ["all"]) ∧
    ((add_subscription_privacy "none").1 = none ∧
      (add_subscription_privacy "none").1.getD [] = [] ∧
      (add_subscription_privacy "none").2 = ["none"] ∧
      (∀ a, a ∈ ((add_subscription_privacy "all").1.getD []) ↔
        (a ∈ subscriptionDescription ∨ a ∈ subscriptionTemplate)) ∧
      (add_subscription_privacy "all").2 = ["all"]) := by
  refine ⟨?_, ?_, ?_⟩
  · have h := resolveAttrs_none_all documentDescription documentTemplate
      "document-description" "document-template"
    exact ⟨h.1, by rw [show (add_document_privacy "none").1 = none from h.1]; rfl,
      h.2.1, h.2.2.1, h.2.2.2⟩
  · have h := resolveAttrs_none_all jobDescription jobTemplate
      "job-description" "job-template"
    exact ⟨h.1, by rw [show (add_job_privacy "none").1 = none from h.1]; rfl,
      h.2.1, h.2.2.1, h.2.2.2⟩
  · have h := resolveAttrs_none_all subscriptionDescription subscriptionTemplate
      "subscription-description" "subscription-template"
    exact ⟨h.1, by rw [show (add_subscription_privacy "none").1 = none from h.1]; rfl,
      h.2.1, h.2.2.1, h.2.2.2⟩

/-- C8: for each privacy category, resolving the alias "default" builds
exactly the same privacy array as resolving the explicit two-token list
naming the category's description and template tables. -/
theorem privacy_default_alias :
    (add_document_privacy "default").1 =
      (add_document_privacy "document-description,document-template").1 ∧
    (add_job_privacy "default").1 =
      (add_job_privacy "job-description,job-template").1 ∧
    (add_subscription_privacy "default").1 =
      (add_subscription_privacy "subscription-description,subscription-template").1 := by
  refine ⟨?_, ?_, ?_⟩
  · exact resolveAttrs_default_pair documentDescription documentTemplate
      "document-description" "document-template"
      "document-description,document-template"
      (by decide) (by decide) (by decide) (by decide) (by decide) (by decide)
      (by decide) (by decide)
  · exact resolveAttrs_default_pair jobDescription jobTemplate
      "job-description" "job-template" "job-description,job-template"
      (by decide) (by decide) (by decide) (by decide) (by decide) (by decide)
      (by decide) (by decide)
  · exact resolveAttrs_default_pair subscriptionDescription subscriptionTemplate
      "subscription-description" "subscription-template"
      "subscription-description,subscription-template"
      (by decide) (by decide) (by decide) (by decide) (by decide) (by decide)
      (by decide) (by decide)

theorem strAdd_pairwise (l : List String) (x : String)
    (h : l.Pairwise (fun a b => strcmp3 a.data b.data = -1)) :
    (strAdd l x).Pairwise (fun a b => strcmp3 a.data b.data = -1) :=
  sortedAdd_pairwise (fun s => s) l x h

theorem foldl_strAdd_pairwise (xs : List String) (l : List String)
    (h : l.Pairwise (fun a b => strcmp3 a.data b.data = -1)) :
    (xs.foldl strAdd l).Pairwise (fun a b => strcmp3 a.data b.data = -1) :=
  foldl_sortedAdd_pairwise (fun s => s) xs l h

theorem expandToken_pairwise (desc templ : List String) (catD catT : String)
    (arr : List String) (tok : String)
    (h : arr.Pairwise (fun a b => strcmp3 a.data b.data = -1)) :
    (expandToken desc templ catD catT arr tok).Pairwise
      (fun a b => strcmp3 a.data b.data = -1) := by
  unfold expandToken
  split
  · exact foldl_strAdd_pairwise templ _ (foldl_strAdd_pairwise desc arr h)
  · split
    · exact foldl_strAdd_pairwise desc arr h
    · split
      · exact foldl_strAdd_pairwise templ arr h
      · exact strAdd_pairwise arr tok h

theorem foldl_expandToken_pairwise (desc templ : List String) (catD catT : String) :
    ∀ (toks : List String) (arr : List String),
      arr.Pairwise (fun a b => strcmp3 a.data b.data = -1) →
      (toks.foldl (expandToken desc templ catD catT) arr).Pairwise
        (fun a b => strcmp3 a.data b.data = -1) := by
  intro toks
  induction toks with
  | nil => intro arr h; simpa using h
  | cons t toks ih =>
    intro arr h
    simpa using ih _ (expandToken_pairwise desc templ catD catT arr t h)

theorem resolveAttrs_nodup (desc templ : List String) (catD catT s : String) :
    ((resolveAttrs desc templ catD catT s).1.getD []).Nodup := by
  by_cases hne : s = "none"
  · subst hne
    simp [resolveAttrs]
  · by_cases hna : s = "all"
    · subst hna
      rw [resolveAttrs, if_neg (by decide), if_pos rfl]
      simp only [Option.getD_some]
      exact pairwise_key_nodup (fun x => x) _
        (foldl_strAdd_pairwise templ _ (foldl_strAdd_pairwise desc [] (by simp)))
    · rw [resolveAttrs, if_neg hne, if_neg hna]
      simp only [Option.getD_some]
      exact pairwise_key_nodup (fun x => x) _
        (foldl_expandToken_pairwise desc templ catD catT _ [] (by simp))

/-- C2: for every operator attributes string handled by the
enumerated-list branch (anything other than the whole-value shortcuts
"none" and "all"), the resolved privacy attribute array of each category
has set semantics: no attribute name occurs twice, even when the
comma-separated tokens expand to overlapping alias tables. -/
theorem privacy_enumerated_nodup (s : String) (hne : s ≠ "none") (hna : s ≠ "all") :
    ((add_document_privacy s).1.getD []).Nodup ∧
    ((add_job_privacy s).1.getD []).Nodup ∧
    ((add_subscription_privacy s).1.getD []).Nodup :=
  ⟨resolveAttrs_nodup documentDescription documentTemplate
      "document-description" "document-template" s,
    resolveAttrs_nodup jobDescription jobTemplate
      "job-description" "job-template" s,
    resolveAttrs_nodup subscriptionDescription subscriptionTemplate
      "subscription-description" "subscription-template" s⟩

/-- Witness for C2 at the overlapping alias list named by the claim. -/
theorem privacy_enumerated_nodup_witness :
    ((add_document_privacy "default,document-description").1.getD []).Nodup ∧
    ((add_job_privacy "default,document-description").1.getD []).Nodup ∧
    ((add_subscription_privacy "default,document-description").1.getD []).Nodup :=
  privacy_enumerated_nodup "default,document-description" (by decide) (by decide)

/-- Early-exit ordered scan of attr_cb (conf.c): the loop starts with
result 1, sets result to strcmp of the candidate against each table
entry in order, breaks as soon as the comparison is not positive, and
finally keeps the attribute exactly when the last comparison was
nonzero. -/
def attrScan (attr : String) : List String → Bool
  | [] => true
  | t :: rest =>
    if strcmp3 attr.data t.data ≤ 0 then decide (strcmp3 attr.data t.data ≠ 0)
    else attrScan attr rest

/-- Embedding of attr_cb (conf.c lines 1072-1141): returns whether an
attribute read from a queue attribute file should be kept. -/
def attr_cb (attr : String) : Bool :=
  attrScan attr ignored

theorem chain_head_lt :
    ∀ (rest : List String) (t u : String),
      List.Chain' (fun a b : String => strcmp3 a.data b.data = -1) (t :: rest) →
      u ∈ rest → strcmp3 t.data u.data = -1 := by
  intro rest
  induction rest with
  | nil =>
    intro t u _ hu
    exact absurd hu (List.not_mem_nil u)
  | cons r rest ih =>
    intro t u hchain hu
    have h1 : strcmp3 t.data r.data = -1 := (List.chain'_cons.mp hchain).1
    have h2 : List.Chain' (fun a b : String => strcmp3 a.data b.data = -1) (r :: rest) :=
      (List.chain'_cons.mp hchain).2
    rcases List.mem_cons.mp hu with hu | hu
    · rw [hu]
      exact h1
    · exact strcmp3_neg_trans _ _ _ h1 (ih r u h2 hu)

theorem attrScan_mem :
    ∀ (table : List String) (attr : String),
      List.Chain' (fun a b : String => strcmp3 a.data b.data = -1) table →
      (attrScan attr table = true ↔ attr ∉ table) := by
  intro table
  induction table with
  | nil =>
    intro attr _
    simp [attrScan]
  | cons t rest ih =>
    intro attr hchain
    have hchainRest : List.Chain' (fun a b : String => strcmp3 a.data b.data = -1) rest :=
      hchain.tail
    rcases strcmp3_cases attr.data t.data with hc | hc | hc
    · have hle : strcmp3 attr.data t.data ≤ 0 := by rw [hc]; decide
      have hnz : strcmp3 attr.data t.data ≠ 0 := by rw [hc]; decide
      rw [attrScan, if_pos hle]
      simp only [decide_eq_true_eq]
      constructor
      · intro _ hmem
        rcases List.mem_cons.mp hmem with hmem | hmem
        · exact hnz (by rw [hmem]; exact strcmp3_self t.data)
        · have hlt : strcmp3 attr.data attr.data = -1 :=
            strcmp3_neg_trans _ _ _ hc (chain_head_lt rest t attr hchain hmem)
          rw [strcmp3_self] at hlt
          exact absurd hlt (by decide)
      · intro _
        exact hnz
    · have hle : strcmp3 attr.data t.data ≤ 0 := le_of_eq hc
      have heq : attr = t := string_data_inj _ _ ((strcmp3_eq_zero_iff _ _).mp hc)
      rw [attrScan, if_pos hle]
      simp only [hc, decide_eq_true_eq]
      constructor
      · intro h
        exact absurd rfl h
      · intro hmem
        exact absurd (by rw [heq]; exact List.mem_cons_self t rest) hmem
    · have hnle : ¬ strcmp3 attr.data t.data ≤ 0 := by rw [hc]; decide
      have hnz : attr ≠ t := by
        intro heq
        rw [heq, strcmp3_self] at hc
        exact absurd hc (by decide)
      rw [attrScan, if_neg hnle]
      rw [ih attr hchainRest]
      constructor
      · intro h hmem
        rcases List.mem_cons.mp hmem with hmem | hmem
        · exact hnz hmem
        · exact h hmem
      · intro h hmem
        exact h (List.mem_cons_of_mem t hmem)

def chainLtB : List String → Bool
  | [] => true
  | [_] => true
  | a :: b :: rest => decide (strcmp3 a.data b.data = -1) && chainLtB (b :: rest)

theorem chainLtB_iff : ∀ l : List String,
    chainLtB l = true ↔ List.Chain' (fun a b : String => strcmp3 a.data b.data = -1) l := by
  intro l
  induction l with
  | nil => simp [chainLtB]
  | cons a l ih =>
    cases l with
    | nil => simp [chainLtB]
    | cons b rest =>
      rw [chainLtB, List.chain'_cons]
      rw [Bool.and_eq_true, decide_eq_true_eq]
      rw [ih]

theorem ignored_sorted :
    List.Chain' (fun a b : String => strcmp3 a.data b.data = -1) ignored :=
  (chainLtB_iff ignored).mp (by decide)

/-- C7: attr_cb keeps a candidate attribute exactly when its name is not
in the fixed sorted ignore table; in particular the table entry
"printer-state" is excluded and "printer-statistics", which is not in
the table, is retained. -/
theorem attr_cb_membership :
    (∀ attr : String, attr_cb attr = true ↔ attr ∉ ignored) ∧
    attr_cb "printer-state" = false ∧
    attr_cb "printer-statistics" = true := by
  refine ⟨?_, by decide, by decide⟩
  intro attr
  exact attrScan_mem ignored attr ignored_sorted

/-- Registry entry for one print queue; only the fields serverFindPrinter
touches are modelled (the resource path key and a display name standing
for the rest of server_printer_t). -/
structure server_printer_t where
  resource : String
  name : String
deriving DecidableEq

/-- Embedding of serverFindPrinter (conf.c lines 270-296) over the
registry contents, an ordered list of printers whose head is
`cupsArrayFirst`. The result is `Except.error ()` when the C code
dereferences the NULL pointer returned by `cupsArrayFirst` on an empty
registry (resource "/ipp/print" with no queues), and otherwise
`Except.ok` of the printer found, if any. The sorted-array lookup
`cupsArrayFind` with the `compare_printers` comparator is modelled from
the spec as returning the queue whose resource path equals the request,
since the CUPS array implementation is not under src/. -/
def serverFindPrinter (printers : List server_printer_t) (resource : String) :
    Except Unit (Option server_printer_t) :=
  if printers.length = 1 ∨ resource = "/ipp/print" then
    match printers with
    | [] => Except.error ()
    | p :: _ =>
      Except.ok (if p.resource ≠ resource ∧ resource ≠ "/ipp/print" then none else some p)
  else
    Except.ok (printers.find? (fun q => q.resource == resource))

/-- Embedding of compare_printers (conf.c lines 1160-1165). -/
def compare_printers (a b : server_printer_t) : Int :=
  strcmp3 a.resource.data b.resource.data

def pA : server_printer_t := ⟨"/ipp/print/a", "a"⟩

def pB : server_printer_t := ⟨"/ipp/print/b", "b"⟩

/-- Counterexample to C3: with exactly one registered queue, a request
whose resource matches neither the queue's path nor "/ipp/print" does
NOT return the sole queue, contrary to the claim that the sole queue
answers every requested resource string. -/
theorem find_printer_single_queue_counterexample :
    serverFindPrinter [pA] "/ipp/print/x" = Except.ok none ∧
    serverFindPrinter [pA] "/ipp/print/x" ≠ Except.ok (some pA) := by
  constructor
  · rfl
  · intro h
    rw [show serverFindPrinter [pA] "/ipp/print/x" = Except.ok none from rfl] at h
    injection h with h
    exact Option.noConfusion h

/-- C3 as amended: on a nonempty registry, the single-queue shortcut
returns the sole queue only when the request equals its resource path or
the generic path "/ipp/print" (and no queue otherwise); the request
"/ipp/print" always answers with the first queue; and in the remaining
cases the lookup returns exactly a registered queue whose resource path
equals the request, or no queue when none matches. -/
theorem find_printer_amended (p : server_printer_t) (ps : List server_printer_t)
    (r : String) :
    (serverFindPrinter [p] r =
      Except.ok (if r = p.resource ∨ r = "/ipp/print" then some p else none)) ∧
    (serverFindPrinter (p :: ps) "/ipp/print" = Except.ok (some p)) ∧
    ((p :: ps).length ≠ 1 → r ≠ "/ipp/print" →
      (∀ q, serverFindPrinter (p :: ps) r = Except.ok (some q) →
        q ∈ p :: ps ∧ q.resource = r) ∧
      (serverFindPrinter (p :: ps) r = Except.ok none ↔
        ∀ q ∈ p :: ps, q.resource ≠ r)) := by
  refine ⟨?_, ?_, ?_⟩
  · have hlen : ([p] : List server_printer_t).length = 1 := rfl
    rw [serverFindPrinter, if_pos (Or.inl hlen)]
    by_cases h1 : r = p.resource
    · simp [h1]
    · by_cases h2 : r = "/ipp/print"
      · simp [h1, h2]
      · have h1s : p.resource ≠ r := fun h => h1 h.symm
        simp [h1, h2, h1s]
  · rw [serverFindPrinter, if_pos (Or.inr rfl)]
    simp
  · intro hlen hr
    have hcond : ¬ ((p :: ps).length = 1 ∨ r = "/ipp/print") := by
      intro hcon
      rcases hcon with hcon | hcon
      · exact hlen hcon
      · exact hr hcon
    rw [serverFindPrinter, if_neg hcond]
    constructor
    · intro q hq
      have hfind : (p :: ps).find? (fun x => x.resource == r) = some q := by
        injection hq
      constructor
      · exact List.mem_of_find?_eq_some hfind
      · have := List.find?_some hfind
        simpa using this
    · constructor
      · intro hq
        have hfind : (p :: ps).find? (fun x => x.resource == r) = none := by
          injection hq
        intro q hqmem
        have := List.find?_eq_none.mp hfind q hqmem
        simpa using this
      · intro hall
        have hfind : (p :: ps).find? (fun x => x.resource == r) = none := by
          rw [List.find?_eq_none]
          intro q hqmem
          simpa using hall q hqmem
        rw [hfind]

/-- Witness for C3 as amended, at the registry from the spec scenario
holding "/ipp/print/a" and "/ipp/print/b". -/
theorem find_printer_amended_witness :
    (∀ q, serverFindPrinter [pA, pB] "/ipp/print/b" = Except.ok (some q) →
      q ∈ [pA, pB] ∧ q.resource = "/ipp/print/b") ∧
    (serverFindPrinter [pA, pB] "/ipp/print/b" = Except.ok none ↔
      ∀ q ∈ [pA, pB], q.resource ≠ "/ipp/print/b") :=
  (find_printer_amended pA [pB] "/ipp/print/b").2.2 (by decide) (by decide)

/-- C10: on an empty registry the request for the generic resource
"/ipp/print" makes serverFindPrinter take the single-queue shortcut,
where `cupsArrayFirst` returns NULL and `match->resource` dereferences
it: the embedded function reports the crash instead of returning no
printer, while any other resource string (here "/ipp/print/a") goes
through the sorted lookup and safely returns no printer. -/
theorem find_printer_empty_registry_crash :
    serverFindPrinter [] "/ipp/print" = Except.error () ∧
    serverFindPrinter [] "/ipp/print/a" = Except.ok none := by
  constructor
  · rfl
  · rfl

/-- Localization entry of a queue: a language and the associated
.strings file path (server_lang_t, as used by conf.c). -/
structure server_lang_t where
  lang : String
  filename : String
deriving DecidableEq

/-- Embedding of compare_lang (conf.c lines 1148-1153). -/
def compare_lang (a b : server_lang_t) : Int :=
  strcmp3 a.lang.data b.lang.data

/-- One Strings directive as processed by token_cb (conf.c lines
1664-1694): the language and the variable-expanded filename are
inserted into the queue's localization array, which is keyed by
compare_lang, that is by the language string. -/
def token_cb_strings (strings : List server_lang_t) (lang filename : String) :
    List server_lang_t :=
  sortedAdd (fun e => e.lang) strings ⟨lang, filename⟩

/-- The localization collection after processing the Strings directives
of one queue attribute file in order, starting from the empty array that
token_cb creates on first use. -/
def load_strings (pairs : List server_lang_t) : List server_lang_t :=
  pairs.foldl (fun acc e => token_cb_strings acc e.lang e.filename) []

/-- The Strings directive for a given language that appears last in the
file, if any. -/
def last_strings_entry (pairs : List server_lang_t) (l : String) :
    Option server_lang_t :=
  (pairs.filter (fun e => e.lang == l)).getLast?

theorem load_strings_eq (pairs : List server_lang_t) :
    load_strings pairs = pairs.foldl (sortedAdd (fun e => e.lang)) [] :=
  rfl

theorem pairwise_lt_ne {α : Type} (key : α → String) (l : List α)
    (h : l.Pairwise (fun a b => strcmp3 (key a).data (key b).data = -1)) :
    l.Pairwise (fun a b => key a ≠ key b) := by
  refine h.imp ?_
  intro a b hab heq
  rw [heq, strcmp3_self] at hab
  exact absurd hab (by decide)

theorem pairwise_filter_length {α : Type} (key : α → String) (s : String) :
    ∀ l : List α, l.Pairwise (fun a b => key a ≠ key b) →
      (l.filter (fun e => key e == s)).length ≤ 1 := by
  intro l
  induction l with
  | nil => intro _; simp
  | cons a l ih =>
    intro h
    rcases List.pairwise_cons.mp h with ⟨ha, hl⟩
    by_cases hk : key a = s
    · have hb : (key a == s) = true := by simp [hk]
      have hnil : l.filter (fun e => key e == s) = [] := by
        rw [List.filter_eq_nil]
        intro b hb2
        simp only [beq_iff_eq]
        intro hbs
        exact (ha b hb2) (by rw [hk, ← hbs])
      simp [List.filter_cons, hb, hnil]
    · have hb : (key a == s) = false := by simp [hk]
      simp only [List.filter_cons, hb, Bool.false_eq_true, if_false]
      exact ih hl

theorem load_strings_find (pairs : List server_lang_t) (l : String) :
    (load_strings pairs).find? (fun e => e.lang == l) = last_strings_entry pairs l := by
  rw [load_strings_eq]
  induction pairs using List.reverseRecOn with
  | nil => simp [last_strings_entry]
  | append_singleton ps p ih =>
    rw [List.foldl_append, List.foldl_cons, List.foldl_nil]
    rw [sortedAdd_find_eq (fun e => e.lang) _ p l]
    rw [last_strings_entry, List.filter_append]
    by_cases hp : p.lang = l
    · have hb : (p.lang == l) = true := by simp [hp]
      simp only [List.filter_cons, hb, List.filter_nil, if_pos]
      rw [List.getLast?_concat]
      simp [hp]
    · have hb : (p.lang == l) = false := by simp [hp]
      simp only [List.filter_cons, hb, List.filter_nil, Bool.false_eq_true, if_false,
        List.append_nil]
      rw [if_neg hp]
      exact ih

/-- C9: across any sequence of Strings directives in one queue attribute
file, the resulting localization collection holds at most one entry per
language, and a language lookup finds exactly the entry recorded by the
last Strings directive for that language (last write wins). -/
theorem strings_last_write_wins (pairs : List server_lang_t) (l : String) :
    ((load_strings pairs).filter (fun e => e.lang == l)).length ≤ 1 ∧
    (load_strings pairs).find? (fun e => e.lang == l) = last_strings_entry pairs l := by
  constructor
  · exact pairwise_filter_length (fun e : server_lang_t => e.lang) l
      (load_strings pairs)
      (pairwise_lt_ne (fun e : server_lang_t => e.lang) (load_strings pairs)
        (foldl_sortedAdd_pairwise (fun e : server_lang_t => e.lang) pairs []
          (by simp)))
  · exact load_strings_find pairs l

/-- Encryption policy keywords accepted by the Encryption directive. -/
inductive ServerEncryption where
  | always
  | ifRequested
  | never
  | required
deriving DecidableEq

/-- Log levels accepted by the LogLevel directive. -/
inductive ServerLogLevel where
  | error
  | info
  | debug
deriving DecidableEq

/-- The directive-settable fields of the process-wide configuration
globals that load_system (conf.c lines 1259-1536) assigns. Fields whose
C globals start as NULL pointers (or as a sentinel group) are Options;
`logFile = none` stands for logging to stderr, and `listeners` records
the host/port pairs successfully registered by Listen directives. -/
structure ServerConfig where
  authentication : Bool := false
  authAdminGroup : Option Nat := none
  authName : Option String := none
  authOperatorGroup : Option Nat := none
  authService : Option String := none
  authTestPassword : Option String := none
  authType : Option String := none
  dataDirectory : Option String := none
  defaultPrinter : Option String := none
  documentPrivacyAttributes : Option String := none
  documentPrivacyScope : Option String := none
  encryption : Option ServerEncryption := none
  jobPrivacyAttributes : Option String := none
  jobPrivacyScope : Option String := none
  keepFiles : Bool := false
  listeners : List (String × Int) := []
  logFile : Option String := none
  logLevel : Option ServerLogLevel := none
  maxCompletedJobs : Option Int := none
  maxJobs : Option Int := none
  spoolDirectory : Option String := none
  subscriptionPrivacyAttributes : Option String := none
  subscriptionPrivacyScope : Option String := none
deriving DecidableEq

/-- The operating-system facilities load_system consults: getgrnam,
access(2) for readability, serverCreateListeners, and getuid. They are
external collaborators per the spec and enter the embedding as pure
oracles. -/
structure SysEnv where
  groupLookup : String → Option Nat
  accessOk : String → Bool
  createListeners : String → Int → Bool
  uid : Nat

/-- One configuration line as delivered by cupsFileGetConf (an external
collaborator): the directive name, its value if one was present on the
line, and the line number in the file. -/
structure ConfEntry where
  line : Nat
  name : String
  value : Option String
deriving DecidableEq

/-- C atoi on the directive values that load_system guards with a
leading-digit check: the value of the longest leading digit run. -/
def atoiInt (s : String) : Int :=
  Int.ofNat ((s.data.takeWhile Char.isDigit).foldl
    (fun n c => 10 * n + (c.toNat - 48)) 0)

/-- Leading-character digit test, modelling `isdigit(*value & 255)`. -/
def headIsDigit (s : String) : Bool :=
  (s.data.head?.map Char.isDigit).getD false

/-- Split at the last colon, modelling the `strrchr(value, ':')` step of
the Listen directive: `none` when the value has no colon, otherwise the
text before the last colon and the text after it. -/
def strrchrSplit (s : String) : Option (String × String) :=
  if ':' ∈ s.data then
    some (String.mk (s.data.take (s.data.length -
            (s.data.reverse.takeWhile (fun c => c ≠ ':')).length - 1)),
          String.mk (s.data.reverse.takeWhile (fun c => c ≠ ':')).reverse)
  else none

/-- ASCII lowercase of one character, modelling the byte-wise
case-insensitive comparison `_cups_strcasecmp` used for directive names
and keyword values. -/
def charLower (c : Char) : Char :=
  if c.toNat ≥ 65 ∧ c.toNat ≤ 90 then Char.ofNat (c.toNat + 32) else c

/-- ASCII lowercase image of a string; two strings compare equal under
`_cups_strcasecmp` exactly when their images under this map are equal. -/
def strLower (s : String) : String :=
  String.mk (s.data.map charLower)

/-- Truth value assigned by the KeepFiles directive (conf.c line 1422):
`!strcasecmp(value,"yes") || !strcasecmp(value,"true") ||
!strcasecmp(value,"on")`; every other token yields false without any
error. -/
def keepFilesValue (value : String) : Bool :=
  decide (strLower value = "yes" ∨ strLower value = "true" ∨ strLower value = "on")

/-- Processing of a single configuration line by the load_system loop
body (conf.c lines 1273-1531): `none` when the directive makes
load_system print a diagnostic, set status 0 and break; otherwise the
updated configuration. Directive names and the boolean/enum keyword
values are compared case-insensitively (`_cups_strcasecmp`), modelled by
comparing `String.toLower` images. An unknown directive only warns and
leaves the configuration unchanged. -/
def load_system_line (env : SysEnv) (cfg : ServerConfig) (e : ConfEntry) :
    Option ServerConfig :=
  match e.value with
  | none => none
  | some value =>
    if strLower e.name = "authentication" then
      if strLower value = "on" ∨ strLower value = "yes" then
        some { cfg with authentication := true }
      else if strLower value = "off" ∨ strLower value = "no" then
        some { cfg with authentication := false }
      else none
    else if strLower e.name = "authadmingroup" then
      match env.groupLookup value with
      | none => none
      | some gid => some { cfg with authAdminGroup := some gid }
    else if strLower e.name = "authname" then
      some { cfg with authName := some value }
    else if strLower e.name = "authoperatorgroup" then
      match env.groupLookup value with
      | none => none
      | some gid => some { cfg with authOperatorGroup := some gid }
    else if strLower e.name = "authservice" then
      some { cfg with authService := some value }
    else if strLower e.name = "authtestpassword" then
      some { cfg with authTestPassword := some value }
    else if strLower e.name = "authtype" then
      some { cfg with authType := some value }
    else if strLower e.name = "datadirectory" then
      if env.accessOk value then some { cfg with dataDirectory := some value }
      else none
    else if strLower e.name = "defaultprinter" then
      match cfg.defaultPrinter with
      | some _ => none
      | none => some { cfg with defaultPrinter := some value }
    else if strLower e.name = "documentprivacyattributes" then
      match cfg.documentPrivacyAttributes with
      | some _ => none
      | none => some { cfg with documentPrivacyAttributes := some value }
    else if strLower e.name = "documentprivacyscope" then
      match cfg.documentPrivacyScope with
      | some _ => none
      | none => some { cfg with documentPrivacyScope := some value }
    else if strLower e.name = "encryption" then
      if strLower value = "always" then
        some { cfg with encryption := some ServerEncryption.always }
      else if strLower value = "ifrequested" then
        some { cfg with encryption := some ServerEncryption.ifRequested }
      else if strLower value = "never" then
        some { cfg with encryption := some ServerEncryption.never }
      else if strLower value = "required" then
        some { cfg with encryption := some ServerEncryption.required }
      else none
    else if strLower e.name = "jobprivacyattributes" then
      match cfg.jobPrivacyAttributes with
      | some _ => none
      | none => some { cfg with jobPrivacyAttributes := some value }
    else if strLower e.name = "jobprivacyscope" then
      match cfg.jobPrivacyScope with
      | some _ => none
      | none => some { cfg with jobPrivacyScope := some value }
    else if strLower e.name = "keepfiles" then
      some { cfg with keepFiles := keepFilesValue value }
    else if strLower e.name = "listen" then
      match strrchrSplit value with
      | some (host, portStr) =>
        if headIsDigit portStr = false then none
        else if env.createListeners host (atoiInt portStr) then
          some { cfg with listeners := cfg.listeners ++ [(host, atoiInt portStr)] }
        else none
      | none =>
        if env.createListeners value (8000 + (Int.ofNat env.uid) % 1000) then
          some { cfg with listeners :=
            cfg.listeners ++ [(value, 8000 + (Int.ofNat env.uid) % 1000)] }
        else none
    else if strLower e.name = "logfile" then
      if strLower value = "stderr" then some { cfg with logFile := none }
      else some { cfg with logFile := some value }
    else if strLower e.name = "loglevel" then
      if strLower value = "error" then
        some { cfg with logLevel := some ServerLogLevel.error }
      else if strLower value = "info" then
        some { cfg with logLevel := some ServerLogLevel.info }
      else if strLower value = "debug" then
        some { cfg with logLevel := some ServerLogLevel.debug }
      else none
    else if strLower e.name = "maxcompletedjobs" then
      if headIsDigit value = false then none
      else some { cfg with maxCompletedJobs := some (atoiInt value) }
    else if strLower e.name = "maxjobs" then
      if headIsDigit value = false then none
      else some { cfg with maxJobs := some (atoiInt value) }
    else if strLower e.name = "spooldirectory" then
      if env.accessOk value then some { cfg with spoolDirectory := some value }
      else none
    else if strLower e.name = "subscriptionprivacyattributes" then
      match cfg.subscriptionPrivacyAttributes with
      | some _ => none
      | none => some { cfg with subscriptionPrivacyAttributes := some value }
    else if strLower e.name = "subscriptionprivacyscope" then
      match cfg.subscriptionPrivacyScope with
      | some _ => none
      | none => some { cfg with subscriptionPrivacyScope := some value }
    else
      some cfg

/-- Result of load_system: the 0/1 status it returns, the line number
carried by the diagnostic when it fails, and the configuration state
left behind. -/
structure LoadOutcome where
  status : Bool
  errLine : Option Nat
  cfg : ServerConfig
deriving DecidableEq

/-- Embedding of the load_system read loop (conf.c lines 1273-1535)
over the sequence of configuration lines delivered by cupsFileGetConf:
process lines left to right, stopping with status 0 and the offending
line number as soon as one fails. -/
def load_system (env : SysEnv) (cfg : ServerConfig) : List ConfEntry → LoadOutcome
  | [] => ⟨true, none, cfg⟩
  | e :: rest =>
    match load_system_line env cfg e with
    | some cfg2 => load_system env cfg2 rest
    | none => ⟨false, some e.line, cfg⟩

/-- An environment with no groups, no readable directories and failing
listener registration, for concrete evaluations that touch none of
those facilities. -/
def env0 : SysEnv :=
  ⟨fun _ => none, fun _ => false, fun _ _ => false, 0⟩

/-- Counterexample to C4: an unrecognized KeepFiles value is NOT
rejected: load_system succeeds on a file whose only line is
`KeepFiles maybe`, silently interpreting the unknown token as false,
while the claim requires the load to fail. -/
theorem keepfiles_unknown_token_counterexample :
    (load_system env0 {} [⟨1, "KeepFiles", some "maybe"⟩]).status = true ∧
    (load_system env0 {} [⟨1, "KeepFiles", some "maybe"⟩]).errLine = none ∧
    (load_system env0 {} [⟨1, "KeepFiles", some "maybe"⟩]).cfg.keepFiles = false := by
  refine ⟨rfl, rfl, rfl⟩

/-- C4 as amended: Authentication accepts exactly the case-insensitive
tokens on/yes/off/no and load_system fails on any other value, but
KeepFiles never fails: it sets the flag true exactly for the
case-insensitive tokens yes/true/on and silently treats every other
token as false. -/
theorem boolean_directive_amended (env : SysEnv) (cfg : ServerConfig)
    (ln : Nat) (v : String) :
    ((load_system env cfg [⟨ln, "Authentication", some v⟩]).status = false ↔
      strLower v ∉ (["on", "yes", "off", "no"] : List String)) ∧
    (load_system env cfg [⟨ln, "KeepFiles", some v⟩]).status = true ∧
    ((load_system env cfg [⟨ln, "KeepFiles", some v⟩]).cfg.keepFiles = true ↔
      strLower v ∈ (["yes", "true", "on"] : List String)) := by
  have hA : strLower "Authentication" = "authentication" := rfl
  have hK : strLower "KeepFiles" = "keepfiles" := rfl
  refine ⟨?_, ?_, ?_⟩
  · by_cases h1 : strLower v = "on" ∨ strLower v = "yes"
    · rcases h1 with h | h <;> simp [load_system, load_system_line, hA, h]
    · by_cases h2 : strLower v = "off" ∨ strLower v = "no"
      · push_neg at h1
        rcases h2 with h | h <;>
          simp [load_system, load_system_line, hA, h1.1, h1.2, h]
      · push_neg at h1 h2
        simp [load_system, load_system_line, hA, h1.1, h1.2, h2.1, h2.2]
  · simp [load_system, load_system_line, hK]
  · simp [load_system, load_system_line, hK, keepFilesValue]

/-- The set-once directives of load_system: DefaultPrinter and the six
privacy scope/attributes directives, recognized case-insensitively. -/
def isSingletonDirective (name : String) : Prop :=
  strLower name = "defaultprinter" ∨
  strLower name = "documentprivacyattributes" ∨
  strLower name = "documentprivacyscope" ∨
  strLower name = "jobprivacyattributes" ∨
  strLower name = "jobprivacyscope" ∨
  strLower name = "subscriptionprivacyattributes" ∨
  strLower name = "subscriptionprivacyscope"

/-- The configuration field a set-once directive assigns. -/
def singletonField (cfg : ServerConfig) (name : String) : Option String :=
  if strLower name = "defaultprinter" then cfg.defaultPrinter
  else if strLower name = "documentprivacyattributes" then
    cfg.documentPrivacyAttributes
  else if strLower name = "documentprivacyscope" then cfg.documentPrivacyScope
  else if strLower name = "jobprivacyattributes" then cfg.jobPrivacyAttributes
  else if strLower name = "jobprivacyscope" then cfg.jobPrivacyScope
  else if strLower name = "subscriptionprivacyattributes" then
    cfg.subscriptionPrivacyAttributes
  else if strLower name = "subscriptionprivacyscope" then
    cfg.subscriptionPrivacyScope
  else none

theorem load_system_append (env : SysEnv) :
    ∀ (l1 l2 : List ConfEntry) (cfg : ServerConfig),
      load_system env cfg (l1 ++ l2) =
        (if (load_system env cfg l1).status then
          load_system env (load_system env cfg l1).cfg l2
        else load_system env cfg l1) := by
  intro l1
  induction l1 with
  | nil => intro l2 cfg; simp [load_system]
  | cons e l1 ih =>
    intro l2 cfg
    rw [List.cons_append]
    cases h : load_system_line env cfg e with
    | some cfg2 =>
      simp only [load_system, h]
      exact ih l2 cfg2
    | none =>
      simp [load_system, h]

/-- C5: when a set-once directive (DefaultPrinter or any of the six
privacy scope/attributes directives) appears on a line while its field
is already set, load_system stops right there: it returns failure with
the diagnostic carrying that line's number, the lines after it are never
processed (the outcome is the same for every suffix `rest`), and the
configuration keeps the earlier value, which in particular is not
overwritten. -/
theorem singleton_directive_failfast (env : SysEnv) (cfg0 cfg1 : ServerConfig)
    (pre rest : List ConfEntry) (e : ConfEntry) (v w : String)
    (hpre : load_system env cfg0 pre = ⟨true, none, cfg1⟩)
    (hsing : isSingletonDirective e.name)
    (hval : e.value = some v)
    (hset : singletonField cfg1 e.name = some w) :
    load_system env cfg0 (pre ++ e :: rest) = ⟨false, some e.line, cfg1⟩ ∧
    singletonField ((load_system env cfg0 (pre ++ e :: rest)).cfg) e.name = some w := by
  have hline : load_system_line env cfg1 e = none := by
    rcases hsing with h | h | h | h | h | h | h <;>
      simp [singletonField, h] at hset <;>
      simp [load_system_line, hval, h, hset]
  have hmain : load_system env cfg0 (pre ++ e :: rest) = ⟨false, some e.line, cfg1⟩ := by
    rw [load_system_append env pre (e :: rest) cfg0, hpre]
    simp only [if_pos]
    rw [load_system, hline]
  refine ⟨hmain, ?_⟩
  rw [hmain]
  exact hset

/-- Witness for C5: a file that sets DefaultPrinter on line 1 and again
on line 2 fails at line 2, leaves the first value in place, and ignores
the MaxJobs line after the duplicate. -/
theorem singleton_directive_failfast_witness :
    load_system env0 {}
        ([⟨1, "DefaultPrinter", some "a"⟩] ++
          (⟨2, "DefaultPrinter", some "b"⟩ : ConfEntry) ::
            [⟨3, "MaxJobs", some "5"⟩]) =
      ⟨false, some 2, { defaultPrinter := some "a" }⟩ ∧
    singletonField ((load_system env0 {}
        ([⟨1, "DefaultPrinter", some "a"⟩] ++
          (⟨2, "DefaultPrinter", some "b"⟩ : ConfEntry) ::
            [⟨3, "MaxJobs", some "5"⟩])).cfg) "DefaultPrinter" = some "a" :=
  singleton_directive_failfast env0 {} { defaultPrinter := some "a" }
    [⟨1, "DefaultPrinter", some "a"⟩] [⟨3, "MaxJobs", some "5"⟩]
    ⟨2, "DefaultPrinter", some "b"⟩ "b" "a" rfl (Or.inl rfl) rfl rfl

/-- Modelled from the spec: ippserver.h (not under src/) defines the
privacy scope keyword constants; the spec describes SERVER_SCOPE_DEFAULT
as the "current user only" scope, under which only the owner sees the
data. -/
def SERVER_SCOPE_DEFAULT : String := "default"

/-- Modelled from the spec: the scope keyword under which redaction
applies to all users including the owner. -/
def SERVER_SCOPE_ALL : String := "all"

/-- The six privacy scope/attributes strings that are all set once
serverFinalizeConfiguration has run. -/
structure PrivacyResolved where
  documentPrivacyScope : String
  documentPrivacyAttributes : String
  jobPrivacyScope : String
  jobPrivacyAttributes : String
  subscriptionPrivacyScope : String
  subscriptionPrivacyAttributes : String
deriving DecidableEq

/-- Embedding of the privacy-defaulting block of
serverFinalizeConfiguration (conf.c lines 173-218): every privacy field
left unset by load_system is filled from the Authentication toggle,
after which the three add_*_privacy functions resolve the attribute
strings. The hostname, TLS, directory-creation and listener-defaulting
steps of the function touch only the operating system and other fields
and are outside this pure fragment. -/
def serverFinalizeConfiguration_privacy (cfg : ServerConfig) : PrivacyResolved :=
  if cfg.authentication then
    ⟨cfg.documentPrivacyScope.getD SERVER_SCOPE_DEFAULT,
     cfg.documentPrivacyAttributes.getD "default",
     cfg.jobPrivacyScope.getD SERVER_SCOPE_DEFAULT,
     cfg.jobPrivacyAttributes.getD "default",
     cfg.subscriptionPrivacyScope.getD SERVER_SCOPE_DEFAULT,
     cfg.subscriptionPrivacyAttributes.getD "default"⟩
  else
    ⟨cfg.documentPrivacyScope.getD SERVER_SCOPE_ALL,
     cfg.documentPrivacyAttributes.getD "none",
     cfg.jobPrivacyScope.getD SERVER_SCOPE_ALL,
     cfg.jobPrivacyAttributes.getD "none",
     cfg.subscriptionPrivacyScope.getD SERVER_SCOPE_ALL,
     cfg.subscriptionPrivacyAttributes.getD "none"⟩

theorem resolveAttrs_default_eq (desc templ : List String) (catD catT : String) :
    (resolveAttrs desc templ catD catT "default").1 =
      some (templ.foldl strAdd (desc.foldl strAdd [])) := by
  rw [resolveAttrs, if_neg (by decide : ("default" : String) ≠ "none"),
    if_neg (by decide : ("default" : String) ≠ "all")]
  have hk : cTokens "default" = ["default"] := by decide
  rw [hk]
  have hf : (["default"] : List String).filter
      (fun t => !(t == "all" || t == "none")) = ["default"] := by decide
  rw [hf]
  simp only [List.foldl_cons, List.foldl_nil]
  rw [expandToken, if_pos rfl]

theorem resolveAttrs_default_nonempty (desc templ : List String)
    (catD catT a : String) (ha : a ∈ desc) :
    (resolveAttrs desc templ catD catT "default").1.getD [] ≠ [] := by
  rw [resolveAttrs_default_eq]
  simp only [Option.getD_some]
  apply List.ne_nil_of_mem (a := a)
  rw [mem_foldl_strAdd, mem_foldl_strAdd]
  simp [ha]

/-- C6: after a directive file that only turns Authentication on, the
finalization step defaults all three privacy scopes to
SERVER_SCOPE_DEFAULT ("current user only") and all three attribute
strings to "default", whose resolution yields non-empty attribute sets
with advertised value "default"; with authentication off (the untouched
initial configuration) all three scopes default to SERVER_SCOPE_ALL and
the attribute strings to "none". -/
theorem finalize_privacy_defaults :
    (serverFinalizeConfiguration_privacy
        (load_system env0 {} [⟨1, "Authentication", some "yes"⟩]).cfg =
      ⟨SERVER_SCOPE_DEFAULT, "default", SERVER_SCOPE_DEFAULT, "default",
        SERVER_SCOPE_DEFAULT, "default"⟩) ∧
    (add_document_privacy "default").1.getD [] ≠ [] ∧
    (add_document_privacy "default").2 = ["default"] ∧
    (add_job_privacy "default").1.getD [] ≠ [] ∧
    (add_job_privacy "default").2 = ["default"] ∧
    (add_subscription_privacy "default").1.getD [] ≠ [] ∧
    (add_subscription_privacy "default").2 = ["default"] ∧
    (serverFinalizeConfiguration_privacy ({} : ServerConfig) =
      ⟨SERVER_SCOPE_ALL, "none", SERVER_SCOPE_ALL, "none",
        SERVER_SCOPE_ALL, "none"⟩) := by
  refine ⟨rfl, ?_, rfl, ?_, rfl, ?_, rfl, rfl⟩
  · exact resolveAttrs_default_nonempty documentDescription documentTemplate
      "document-description" "document-template" "compression" (by decide)
  · exact resolveAttrs_default_nonempty jobDescription jobTemplate
      "job-description" "job-template" "compression-supplied" (by decide)
  · exact resolveAttrs_default_nonempty subscriptionDescription
      subscriptionTemplate "subscription-description" "subscription-template"
      "notify-lease-expiration-time" (by decide)
